import Mathlib

/-!
Verification development for `smart_monitor.py`, a S.M.A.R.T. disk health
monitor.  The core of the program is

  * `get_disk_info` (source lines 156-323): an attribute extractor that turns
    the three text blobs produced by the diagnostic utility (identity, health,
    attribute table) into a structured record, and
  * the per-disk classification block of `main` (source lines 376-414), which
    turns a record into a list of issue findings, plus the summary block
    (lines 421-431) that maps the accumulated findings to a process exit code.

The Python code parses the free text with `re.search`.  Every pattern used by
the program is embedded below as an explicit scanner over `List Char` with the
exact leftmost-match / lazy / greedy backtracking semantics of the original
regular expression; the doc comment of each scanner records which pattern it
implements.  Machine text is `List Char`; the Python sentinel string N/A used
for an absent field is modelled as `none`.
-/

/-- Text is a list of characters. -/
abbrev Str := List Char

/-- Python `\s` on the ASCII range: space, tab, newline, carriage return,
vertical tab, form feed. -/
def isSpaceChar (c : Char) : Bool :=
  c == ' ' || c == '\t' || c == '\n' || c == '\r' || c == '\x0b' || c == '\x0c'

/-- The portion of the text up to (not including) the next newline: the span
that a non-DOTALL `.` can traverse. -/
def restOfLine (cs : Str) : Str := cs.takeWhile (fun c => c ≠ '\n')

/-- Maximal leading run of decimal digits (a greedy `\d+` with nothing after
it, or a greedy `\d*`). -/
def takeDigits (cs : Str) : Str := cs.takeWhile Char.isDigit

/-- Leftmost `\d+` in the text: the first maximal digit run, if any digit
occurs at all. -/
def firstDigitRun : Str → Option Str
  | [] => none
  | c :: cs => if c.isDigit then some (c :: takeDigits cs) else firstDigitRun cs

/-- Python `int` on a (nonempty) string of decimal digits. -/
def digitsToNat (ds : Str) : Nat := ds.foldl (fun n c => n * 10 + (c.toNat - 48)) 0

/-- Python `str.lower` on the ASCII range. -/
def toLowerStr (cs : Str) : Str := cs.map Char.toLower

/-- `re.search` start-position scan: try `step` at every suffix of the text,
left to right, and return the first success. -/
def scanSuffixes (step : Str → Option α) : Str → Option α
  | [] => step []
  | c :: cs =>
    match step (c :: cs) with
    | some r => some r
    | none => scanSuffixes step cs

/-- Python `pat in text` (substring test). -/
def hasSubstr (pat : Str) : Str → Bool
  | [] => pat.isPrefixOf []
  | c :: cs => pat.isPrefixOf (c :: cs) || hasSubstr pat cs

/-- One attempt of `LABEL.*?(\d+)` at the current position: the literal label,
then (lazily) the first maximal digit run later on the same line. -/
def numAfterLabel (label cs : Str) : Option Str :=
  if label.isPrefixOf cs then firstDigitRun (restOfLine (cs.drop label.length)) else none

/-- `re.search(r"LABEL.*?(\d+)", text)`: the capture group of the leftmost
match. -/
def searchLabelNum (label text : Str) : Option Str :=
  scanSuffixes (numAfterLabel label) text

/-- One attempt of `(L1|L2).*?(\d+)` at the current position: alternative `L1`
is tried before `L2`.  The Bool records whether the first alternative was the
one that matched (the value of capture group 1). -/
def numAfterLabels (l1 l2 cs : Str) : Option (Bool × Str) :=
  match numAfterLabel l1 cs with
  | some ds => some (true, ds)
  | none =>
    match numAfterLabel l2 cs with
    | some ds => some (false, ds)
    | none => none

/-- `re.search(r"(L1|L2).*?(\d+)", text)`. -/
def searchLabels2Num (l1 l2 text : Str) : Option (Bool × Str) :=
  scanSuffixes (numAfterLabels l1 l2) text

/-- Backtracking of `\s+(.+)` applied to `cs`: the greedy `\s+` first takes the
maximal whitespace run, then gives characters back (never below one) until the
next character exists and is not a newline.  Returns the number of characters
finally consumed by `\s+`, i.e. the largest index `k` with `1 ≤ k ≤ wlen` such
that `cs[k]` exists and is not a newline. -/
def wsSplitIdx (cs : Str) : Nat → Option Nat
  | 0 => none
  | k + 1 =>
    match cs[k + 1]? with
    | some c => if c = '\n' then wsSplitIdx cs k else some (k + 1)
    | none => wsSplitIdx cs k

/-- `\s+(.+)` applied to `cs`: the capture of `(.+)` (greedy, up to the end of
the line), or `none` when `cs` does not start with whitespace or nothing
matchable by `.` follows. -/
def captureRestAfterWs (cs : Str) : Option Str :=
  match wsSplitIdx cs (cs.takeWhile isSpaceChar).length with
  | some k => some (restOfLine (cs.drop k))
  | none => none

/-- One attempt of `LABEL\s+(.+)` at the current position. -/
def restAfterLabel (label cs : Str) : Option Str :=
  if label.isPrefixOf cs then captureRestAfterWs (cs.drop label.length) else none

/-- `re.search(r"LABEL\s+(.+)", text)`: the capture group of the leftmost
match. -/
def searchLabelRest (label text : Str) : Option Str :=
  scanSuffixes (restAfterLabel label) text

/-- One attempt of `LABEL(.+)` at the current position (used by the primary
health pattern, whose literal already ends in `": "`): at least one
non-newline character must follow the literal, and the capture extends to the
end of the line. -/
def lineTailAfterLabel (label cs : Str) : Option Str :=
  if label.isPrefixOf cs then
    match cs.drop label.length with
    | [] => none
    | c :: rest => if c = '\n' then none else some (c :: restOfLine rest)
  else none

/-- One attempt of `Temperature:\s+(\d+)\s+Celsius` at the current position
(source line 235).  Each greedy `\s+` must consume at least one whitespace
character; backtracking cannot trade characters between `\s+` and `\d+` or the
literal, so the runs are simply maximal. -/
def nvmeTempAt (cs : Str) : Option Str :=
  if ("Temperature:".data).isPrefixOf cs then
    let r1 := cs.drop ("Temperature:".data).length
    let w1 := r1.takeWhile isSpaceChar
    if w1 = [] then none
    else
      let r2 := r1.drop w1.length
      let d := takeDigits r2
      if d = [] then none
      else
        let r3 := r2.drop d.length
        let w2 := r3.takeWhile isSpaceChar
        if w2 = [] then none
        else if ("Celsius".data).isPrefixOf (r3.drop w2.length) then some d else none
  else none

/-- One attempt of `LABEL\s+(\d+)` at the current position (NVMe power-on
hours, source line 245). -/
def wsDigitsAfterLabel (label cs : Str) : Option Str :=
  if label.isPrefixOf cs then
    let r1 := cs.drop label.length
    let w1 := r1.takeWhile isSpaceChar
    if w1 = [] then none
    else
      let d := takeDigits (r1.drop w1.length)
      if d = [] then none else some d
  else none

/-- One attempt of `Percentage Used:\s+(\d+)%` at the current position (source
line 281): the maximal digit run must be followed immediately by a percent
sign. -/
def pctUsedAt (cs : Str) : Option Str :=
  if ("Percentage Used:".data).isPrefixOf cs then
    let r1 := cs.drop ("Percentage Used:".data).length
    let w1 := r1.takeWhile isSpaceChar
    if w1 = [] then none
    else
      let r2 := r1.drop w1.length
      let d := takeDigits r2
      if d = [] then none
      else
        match r2.drop d.length with
        | '%' :: _ => some d
        | _ => none
  else none

/-- Python `[0-9,]`. -/
def isDigitOrComma (c : Char) : Bool := c.isDigit || c == ','

/-- One attempt of `LABEL\s+([0-9,]+)` at the current position (NVMe data
units, source lines 295 and 312). -/
def dataUnitsAfterLabel (label cs : Str) : Option Str :=
  if label.isPrefixOf cs then
    let r1 := cs.drop label.length
    let w1 := r1.takeWhile isSpaceChar
    if w1 = [] then none
    else
      let d := (r1.drop w1.length).takeWhile isDigitOrComma
      if d = [] then none else some d
  else none

/-- The suffix of the text following the leftmost occurrence of the literal,
if the literal occurs. -/
def suffixAfterLit (lit : Str) : Str → Option Str
  | [] => if lit.isPrefixOf [] then some [] else none
  | c :: cs =>
    if lit.isPrefixOf (c :: cs) then some ((c :: cs).drop lit.length)
    else suffixAfterLit lit cs

/-- Whether the text contains the (lowercase, as in the pattern) keyword
`normal` or `failed`. -/
def containsHealthKeyword (cs : Str) : Bool :=
  hasSubstr ("normal".data) cs || hasSubstr ("failed".data) cs

/-- Capture group 1 of `.*\s+(.*(normal|failed).*)` under `re.DOTALL`, applied
to the suffix `S` after the literal.  The leading DOTALL `.*` is greedy, so the
whitespace consumed by `\s+` starts as late as possible; given that, `\s+` is
greedy but (by the maximality of the start) ends up consuming exactly one
character, and the trailing greedy `.*` extends the group to the end of the
text.  Hence group 1 is the suffix following the LAST whitespace character
whose strict suffix still contains `normal` or `failed`. -/
def lastWsKeywordSuffix : Str → Option Str
  | [] => none
  | c :: cs =>
    match lastWsKeywordSuffix cs with
    | some r => some r
    | none => if isSpaceChar c && containsHealthKeyword cs then some cs else none

/-- `re.search(r"SMART/Health Information.*\s+(.*(normal|failed).*)", health,
re.DOTALL)` (source line 212): capture group 1 of the leftmost match.  The
leftmost match starts at the first occurrence of the literal (if a later
occurrence admitted a match, so would the first, since everything after the
literal is crossed by a DOTALL `.*`). -/
def nvmeHealthGroup (health : Str) : Option Str :=
  match suffixAfterLit ("SMART/Health Information".data) health with
  | some s => lastWsKeywordSuffix s
  | none => none

/-- The literal part of the primary health pattern
`SMART overall-health self-assessment test result: (.+)` (source line 207). -/
def healthResultLabel : Str := "SMART overall-health self-assessment test result: ".data

/-- Health parsing, source lines 204-217.  An empty health blob is falsy in
Python, so the default `Unknown` survives; otherwise the primary ATA pattern
is tried, then the NVMe fallback, whose group is classified `PASSED` exactly
when it contains `normal` case-insensitively. -/
def extractHealthStatus (health : Str) : Str :=
  if health = [] then "Unknown".data
  else
    match scanSuffixes (lineTailAfterLabel healthResultLabel) health with
    | some s => s
    | none =>
      match nvmeHealthGroup health with
      | some g => if hasSubstr ("normal".data) (toLowerStr g) then "PASSED".data else "FAILED".data
      | none => "Unknown".data

/-- Model parsing, source lines 181-191: `Device Model`, then `Product`, then
`Model Number`, defaulting to `Unknown`. -/
def extractModel (info : Str) : Str :=
  match searchLabelRest ("Device Model:".data) info with
  | some m => m
  | none =>
    match searchLabelRest ("Product:".data) info with
    | some m => m
    | none =>
      match searchLabelRest ("Model Number:".data) info with
      | some m => m
      | none => "Unknown".data

/-- Serial number parsing, source lines 194-196. -/
def extractSerial (info : Str) : Str :=
  match searchLabelRest ("Serial Number:".data) info with
  | some s => s
  | none => "Unknown".data

/-- SSD detection, source lines 199-202. -/
def computeIsSSD (info model : Str) : Bool :=
  hasSubstr ("Solid State Device".data) info
    || hasSubstr ("Rotation Rate: Solid State".data) info
    || hasSubstr ("NVMe".data) info
    || hasSubstr ("SSD".data) model

/-- Temperature parsing, source lines 225-237.  The source stores the string
`f"{digits} °C"`; the classifier later re-extracts the integer with `(\d+)`,
which yields exactly `int(digits)`, so the record keeps the integer value. -/
def extractTemperature (attr : Str) : Option Nat :=
  match searchLabelNum ("Temperature_Celsius".data) attr with
  | some ds => some (digitsToNat ds)
  | none =>
    match searchLabels2Num ("Airflow_Temperature_Cel".data) ("Temperature".data) attr with
    | some (_, ds) => some (digitsToNat ds)
    | none =>
      match scanSuffixes nvmeTempAt attr with
      | some ds => some (digitsToNat ds)
      | none => none

/-- The string `f"{h // 24} days, {h % 24} hours"`. -/
def renderDaysHours (h : Nat) : Str :=
  (Nat.repr (h / 24)).data ++ (" days, ".data) ++ (Nat.repr (h % 24)).data ++ (" hours".data)

/-- `parse_power_on_hours`, source lines 131-142, applied to a captured digit
string (the only way the program calls it): `int` cannot fail on it, so the
result is always the days-and-hours rendering. -/
def parse_power_on_hours (ds : Str) : Str := renderDaysHours (digitsToNat ds)

/-- Power-on time parsing, source lines 240-247: the record stores the
rendered days-and-hours STRING, not the raw hour count. -/
def extractPowerOnTime (attr : Str) : Option Str :=
  match searchLabelNum ("Power_On_Hours".data) attr with
  | some ds => some (parse_power_on_hours ds)
  | none =>
    match scanSuffixes (wsDigitsAfterLabel ("Power On Hours:".data)) attr with
    | some ds => some (parse_power_on_hours ds)
    | none => none

/-- HDD reallocated sector count, source lines 252-254. -/
def extractReallocated (attr : Str) : Option Nat :=
  (searchLabelNum ("Reallocated_Sector_Ct".data) attr).map digitsToNat

/-- HDD pending sector count, source lines 257-259. -/
def extractPending (attr : Str) : Option Nat :=
  (searchLabelNum ("Current_Pending_Sector".data) attr).map digitsToNat

/-- HDD uncorrectable sector count, source lines 262-264 (capture group 2 of
the alternation pattern). -/
def extractUncorrectable (attr : Str) : Option Nat :=
  (searchLabels2Num ("Offline_Uncorrectable".data) ("Reported_Uncorrect".data) attr).map
    (fun p => digitsToNat p.2)

/-- SSD life remaining, source lines 269-287.  Group 1 of the wear pattern is
exactly one of the two attribute names, so the membership test
`"Media_Wearout_Indicator" in wear_match.group(1)` holds iff the second
alternative matched; in that case life remaining is `100 - value` (a Python
int, possibly negative), otherwise the value itself; the NVMe fallback stores
`100 - N` from `Percentage Used: N%`.  The source stores the string
`f"{life}%"`. -/
def extractLifeRemaining (attr : Str) : Option Int :=
  match searchLabels2Num ("Wear_Leveling_Count".data) ("Media_Wearout_Indicator".data) attr with
  | some (b, ds) =>
    if b then some ((digitsToNat ds : Int)) else some (100 - (digitsToNat ds : Int))
  | none =>
    match scanSuffixes pctUsedAt attr with
    | some ds => some (100 - (digitsToNat ds : Int))
    | none => none

/-- The integer `bytes_value` of `parse_lba_to_tb`, source line 150: an LBA
count converts to bytes at a fixed 512 bytes per sector.  (The source then
formats `bytes_value / 1024**4` rounded to two decimals as a display string;
the record here keeps the exact byte count, which is the value the conversion
produces before the presentational float formatting.) -/
def lba_bytes_value (n : Nat) : Nat := n * 512

/-- The integer `bytes_value` of the NVMe data-unit branch, source lines
300 and 317: a data-unit count converts to bytes at a fixed 512 KiB per
unit. -/
def nvme_bytes_value (n : Nat) : Nat := n * 512 * 1024

/-- SSD total bytes written, source lines 290-304: legacy `Total_LBAs_Written`
row first, else NVMe `Data Units Written` with comma separators stripped
before the numeric parse (`int` fails, leaving the field unset, exactly when
nothing remains after stripping). -/
def extractTotalWritten (attr : Str) : Option Nat :=
  match searchLabelNum ("Total_LBAs_Written".data) attr with
  | some ds => some (lba_bytes_value (digitsToNat ds))
  | none =>
    match scanSuffixes (dataUnitsAfterLabel ("Data Units Written:".data)) attr with
    | some run =>
      let ds := run.filter (fun c => c ≠ ',')
      if ds = [] then none else some (nvme_bytes_value (digitsToNat ds))
    | none => none

/-- SSD total bytes read, source lines 307-321. -/
def extractTotalRead (attr : Str) : Option Nat :=
  match searchLabelNum ("Total_LBAs_Read".data) attr with
  | some ds => some (lba_bytes_value (digitsToNat ds))
  | none =>
    match scanSuffixes (dataUnitsAfterLabel ("Data Units Read:".data)) attr with
    | some run =>
      let ds := run.filter (fun c => c ≠ ',')
      if ds = [] then none else some (nvme_bytes_value (digitsToNat ds))
    | none => none

/-- The `Attributes` sub-dictionary of the record built by `get_disk_info`.
Each field is `none` exactly when the source leaves the sentinel `"N/A"` in
place.  `Temperature`, the sector counters, `LifeRemaining` and the byte
totals keep the integer the source wraps in its display string (the later
classification re-extracts exactly that integer); `PowerOnTime` keeps the full
rendered string, which is what the source stores. -/
structure DiskAttributes where
  Temperature : Option Nat
  PowerOnTime : Option Str
  ReallocatedSectors : Option Nat
  PendingSectors : Option Nat
  UncorrectableSectors : Option Nat
  LifeRemaining : Option Int
  TotalWritten : Option Nat
  TotalRead : Option Nat
  deriving DecidableEq

/-- The record built by `get_disk_info`, source lines 158-173. -/
structure DiskInfo where
  Model : Str
  SerialNumber : Str
  IsSSD : Bool
  HealthStatus : Str
  Attributes : DiskAttributes
  deriving DecidableEq

/-- All attributes unset, source lines 163-172. -/
def defaultAttrs : DiskAttributes := ⟨none, none, none, none, none, none, none, none⟩

/-- The initial record, source lines 158-173. -/
def defaultDiskInfo : DiskInfo :=
  ⟨"Unknown".data, "Unknown".data, false, "Unknown".data, defaultAttrs⟩

/-- `get_disk_info`, source lines 156-323.  An empty (falsy) identity blob
returns the default record at once (line 178); an empty attribute blob returns
after identity and health parsing (line 222); the HDD-only sector counters are
parsed only when the disk is not an SSD (line 250) and the SSD-only fields
only when it is (line 267). -/
def get_disk_info (info health attr : Str) : DiskInfo :=
  if info = [] then defaultDiskInfo
  else
    let model := extractModel info
    let serial := extractSerial info
    let isSSD := computeIsSSD info model
    let healthStatus := extractHealthStatus health
    if attr = [] then
      { Model := model, SerialNumber := serial, IsSSD := isSSD,
        HealthStatus := healthStatus, Attributes := defaultAttrs }
    else
      { Model := model, SerialNumber := serial, IsSSD := isSSD,
        HealthStatus := healthStatus,
        Attributes :=
          { Temperature := extractTemperature attr,
            PowerOnTime := extractPowerOnTime attr,
            ReallocatedSectors := if isSSD then none else extractReallocated attr,
            PendingSectors := if isSSD then none else extractPending attr,
            UncorrectableSectors := if isSSD then none else extractUncorrectable attr,
            LifeRemaining := if isSSD then extractLifeRemaining attr else none,
            TotalWritten := if isSSD then extractTotalWritten attr else none,
            TotalRead := if isSSD then extractTotalRead attr else none } }

/-- Severity of a finding.  The source keeps findings as message strings in a
single list; the message template distinguishes warnings (`temperature
warning`, `SSD life warning`) from the critical conditions. -/
inductive Severity where
  | Warning
  | Critical
  deriving DecidableEq

/-- One issue finding, identified by the message template of the source
(lines 377, 384, 386, 398, 400, 408, 411, 414) together with the numeric
value interpolated into the message. -/
inductive Finding where
  | healthIssue (status : Str)
  | tempCritical (t : Nat)
  | tempWarning (t : Nat)
  | ssdLifeCritical (v : Int)
  | ssdLifeWarning (v : Int)
  | reallocatedSectors (n : Nat)
  | pendingSectors (n : Nat)
  | uncorrectableSectors (n : Nat)
  deriving DecidableEq

/-- Severity carried by each message template. -/
def Finding.severity : Finding → Severity
  | .tempWarning _ => .Warning
  | .ssdLifeWarning _ => .Warning
  | _ => .Critical

/-- Whether a finding is one of the two temperature findings. -/
def Finding.isTempFinding : Finding → Bool
  | .tempCritical _ => true
  | .tempWarning _ => true
  | _ => false

/-- Health check, source lines 376-377: a finding unless the status is
`PASSED` or `Unknown`. -/
def healthFindings (d : DiskInfo) : List Finding :=
  if d.HealthStatus ≠ "PASSED".data ∧ d.HealthStatus ≠ "Unknown".data then
    [Finding.healthIssue d.HealthStatus]
  else []

/-- Temperature check, source lines 380-386.  The source re-extracts the
integer from the stored `f"{t} °C"` string with `(\d+)`, recovering exactly
`t`; the sentinel `N/A` contains no digit and produces no finding. -/
def temperatureFindings (d : DiskInfo) : List Finding :=
  match d.Attributes.Temperature with
  | some t =>
    if t ≥ 60 then [Finding.tempCritical t]
    else if t ≥ 50 then [Finding.tempWarning t]
    else []
  | none => []

/-- SSD life check, source lines 394-400.  The source re-extracts the number
from the stored `f"{v}%"` string with `(\d+)%`; when `v` is negative the
rendered string is `-|v|%`, whose first digit run is the decimal of `|v|`, so
the compared number is `v.natAbs` in every case. -/
def ssdLifeFindings (d : DiskInfo) : List Finding :=
  match d.Attributes.LifeRemaining with
  | some v =>
    if v.natAbs ≤ 10 then [Finding.ssdLifeCritical v]
    else if v.natAbs ≤ 20 then [Finding.ssdLifeWarning v]
    else []
  | none => []

/-- HDD bad-sector checks, source lines 407-414: one critical finding per
counter that is present (`!= "N/A"`, and the stored capture is always a digit
string so `isdigit` holds) and strictly positive. -/
def hddSectorFindings (d : DiskInfo) : List Finding :=
  (match d.Attributes.ReallocatedSectors with
   | some n => if n > 0 then [Finding.reallocatedSectors n] else []
   | none => []) ++
  (match d.Attributes.PendingSectors with
   | some n => if n > 0 then [Finding.pendingSectors n] else []
   | none => []) ++
  (match d.Attributes.UncorrectableSectors with
   | some n => if n > 0 then [Finding.uncorrectableSectors n] else []
   | none => [])

/-- The per-disk classification block of `main`, source lines 376-414, in
source order: health, temperature, then the SSD life check or the HDD sector
checks according to the solid-state flag. -/
def classify_disk (d : DiskInfo) : List Finding :=
  healthFindings d ++ temperatureFindings d ++
    (if d.IsSSD then ssdLifeFindings d else hddSectorFindings d)

/-- Aggregate verdict of the summary block, source lines 421-431. -/
inductive Verdict where
  | OK
  | Warning
  deriving DecidableEq

/-- Source lines 421-431: the status line printed by the summary. -/
def verdictOf (findings : List Finding) : Verdict :=
  if findings = [] then .OK else .Warning

/-- Source lines 421-431: the exit code returned by the summary — 1 exactly
when the accumulated findings list is non-empty, else 0. -/
def summaryExitCode (findings : List Finding) : Nat :=
  if findings = [] then 0 else 1

/-- Input for one device: the three text blobs, or `none` to model a raised
exception anywhere in the per-device loop body (source lines 360-415). -/
abbrev DeviceInput := Option (Str × Str × Str)

/-- Result of processing one device: a record with its findings, or the
device-level processing-error marker printed by the handler at source
line 417. -/
inductive DeviceResult where
  | ok (d : DiskInfo) (findings : List Finding)
  | procError
  deriving DecidableEq

/-- Body of the per-device loop, source lines 359-417: the try block extracts
and classifies; any exception is caught at the per-device boundary and leaves
only the error marker. -/
def processDevice : DeviceInput → DeviceResult
  | none => .procError
  | some (i, h, a) =>
    let d := get_disk_info i h a
    .ok d (classify_disk d)

/-- The whole device loop: each device is processed independently. -/
def runScan (inputs : List DeviceInput) : List DeviceResult :=
  inputs.map processDevice

/-- The findings a device contributes to the accumulated list: an errored
device contributes none (source line 417 only prints). -/
def resultFindings : DeviceResult → List Finding
  | .ok _ fs => fs
  | .procError => []

/-- The accumulated `critical_issues` list over the batch, in device order. -/
def collectFindings (rs : List DeviceResult) : List Finding :=
  rs.foldr (fun r acc => resultFindings r ++ acc) []

/-! ## Concrete inputs used by the theorems below -/

/-- Identity blob of a rotating disk. -/
def hddInfo1 : Str := "Device Model: HDD".data

/-- Identity blob of an NVMe solid-state disk. -/
def nvmeInfo : Str := "NVMe".data

/-- A canonical `smartctl -A` ATA attribute-table row for
`Reallocated_Sector_Ct` whose RAW_VALUE (last column) is 7. -/
def ataRowC1 : Str :=
  "  5 Reallocated_Sector_Ct   0x0033   100   100   036    Pre-fail  Always       -       7".data

/-- Attribute blob with a wearout-indicator row of raw value 85 (the form used
by the specification). -/
def mwiAttr : Str := "Media_Wearout_Indicator: 85".data

/-- NVMe attribute blob reporting 85 percent used. -/
def pctAttr : Str := "Percentage Used: 85%".data

/-- Attribute blob with a pending-sector row of value 3. -/
def pendingAttr1 : Str := "Current_Pending_Sector: 3".data

/-- Attribute blob with a power-on-hours row of value 25. -/
def pohAttr : Str := "Power_On_Hours: 25".data

/-- Attribute blob with a legacy LBA-written row of 2147483648 sectors. -/
def lbaAttr : Str := "Total_LBAs_Written 2147483648".data

/-- Attribute blob with an NVMe data-units-written row of 2,097,152 units. -/
def duAttr : Str := "Data Units Written: 2,097,152".data

/-- Attribute blob with a legacy LBA-read row of 2147483648 sectors. -/
def lbaReadAttr : Str := "Total_LBAs_Read 2147483648".data

/-- Attribute blob with an NVMe data-units-read row of 2,097,152 units. -/
def duReadAttr : Str := "Data Units Read: 2,097,152".data

/-- NVMe health blob whose fallback capture contains both `failed` and
`normal` (inside `abnormal`). -/
def nvmeHealth1 : Str := "SMART/Health Information\nStatus: failed,abnormal".data

/-- NVMe health blob whose fallback capture contains `failed` but no
occurrence of `normal`. -/
def nvmeHealth2 : Str := "SMART/Health Information\nStatus: failed".data

/-- The record produced for `hddInfo1` with attribute blob `pendingAttr1`. -/
def hddRec1 : DiskInfo :=
  ⟨"HDD".data, "Unknown".data, false, "Unknown".data,
   ⟨none, none, none, some 3, none, none, none, none⟩⟩

/-- The record produced for `nvmeInfo` with attribute blob `mwiAttr`. -/
def ssdRec3 : DiskInfo :=
  ⟨"Unknown".data, "Unknown".data, true, "Unknown".data,
   ⟨none, none, none, none, none, some 15, none, none⟩⟩

/-- A record carrying only a temperature reading. -/
def recWithTemp (t : Nat) : DiskInfo :=
  ⟨"Unknown".data, "Unknown".data, false, "Unknown".data,
   ⟨some t, none, none, none, none, none, none, none⟩⟩

/-! ## Helper lemmas -/

/-- `get_disk_info` on non-empty identity and attribute blobs, written as an
explicit record. -/
theorem get_disk_info_eq (info health attr : Str) (h1 : info ≠ []) (h2 : attr ≠ []) :
    get_disk_info info health attr =
      ⟨extractModel info, extractSerial info, computeIsSSD info (extractModel info),
       extractHealthStatus health,
       ⟨extractTemperature attr, extractPowerOnTime attr,
        if computeIsSSD info (extractModel info) then none else extractReallocated attr,
        if computeIsSSD info (extractModel info) then none else extractPending attr,
        if computeIsSSD info (extractModel info) then none else extractUncorrectable attr,
        if computeIsSSD info (extractModel info) then extractLifeRemaining attr else none,
        if computeIsSSD info (extractModel info) then extractTotalWritten attr else none,
        if computeIsSSD info (extractModel info) then extractTotalRead attr else none⟩⟩ := by
  simp only [get_disk_info, if_neg h1, if_neg h2]

/-- `get_disk_info` on a non-empty identity blob and an empty attribute blob:
all attributes stay unset. -/
theorem get_disk_info_noattr (info health attr : Str) (h1 : info ≠ []) (h2 : attr = []) :
    get_disk_info info health attr =
      ⟨extractModel info, extractSerial info, computeIsSSD info (extractModel info),
       extractHealthStatus health, defaultAttrs⟩ := by
  subst h2
  simp only [get_disk_info, if_neg h1]
  exact if_pos trivial

/-- The health rule never produces a temperature finding. -/
theorem filterTemp_health (d : DiskInfo) :
    (healthFindings d).filter Finding.isTempFinding = [] := by
  unfold healthFindings
  split <;> rfl

/-- The SSD life rule never produces a temperature finding. -/
theorem filterTemp_ssdLife (d : DiskInfo) :
    (ssdLifeFindings d).filter Finding.isTempFinding = [] := by
  unfold ssdLifeFindings
  cases d.Attributes.LifeRemaining
  · rfl
  · (repeat' split) <;> rfl

/-- The HDD sector rules never produce a temperature finding. -/
theorem filterTemp_hdd (d : DiskInfo) :
    (hddSectorFindings d).filter Finding.isTempFinding = [] := by
  unfold hddSectorFindings
  cases d.Attributes.ReallocatedSectors <;> cases d.Attributes.PendingSectors <;>
    cases d.Attributes.UncorrectableSectors <;> (repeat' split) <;> rfl

/-- Every finding of the temperature rule is a temperature finding. -/
theorem filterTemp_temp (d : DiskInfo) :
    (temperatureFindings d).filter Finding.isTempFinding = temperatureFindings d := by
  unfold temperatureFindings
  cases d.Attributes.Temperature
  · rfl
  · (repeat' split) <;> rfl

/-! ## Claims -/

/-- Claim C1 (code bug).  The claim states that for well-formed ATA attribute
text extraction stores exactly the raw integer of the `Reallocated_Sector_Ct`
row and that a nonzero raw value yields a Critical finding.  On a canonical
`smartctl -A` row the pattern `Reallocated_Sector_Ct.*?(\d+)` captures the
FIRST digit run after the attribute name, which is the leading `0` of the
normalized-flags column `0x0033`, not the RAW_VALUE column: here the raw value
is 7, yet the record stores 0 and classification emits no finding at all. -/
theorem claim_C1 :
    (get_disk_info hddInfo1 [] ataRowC1).Attributes.ReallocatedSectors = some 0
      ∧ classify_disk (get_disk_info hddInfo1 [] ataRowC1) = []
      ∧ hasSubstr ("       7".data) ataRowC1 = true := by
  refine ⟨by decide, by decide, by decide⟩

/-- Claim C2 (confirmed).  For every record: the temperature findings among
the classification output are exactly one Critical finding when the
temperature is at least 60, exactly one Warning finding when it is in
[50, 60), and none when it is below 50 or unset; the boundary values 49, 50,
59, 60 are exercised explicitly, with the severities carried by the two
message templates. -/
theorem claim_C2 :
    (∀ d : DiskInfo,
      (classify_disk d).filter Finding.isTempFinding =
        (match d.Attributes.Temperature with
         | some t =>
           if t ≥ 60 then [Finding.tempCritical t]
           else if t ≥ 50 then [Finding.tempWarning t]
           else []
         | none => []))
    ∧ classify_disk (recWithTemp 49) = []
    ∧ classify_disk (recWithTemp 50) = [Finding.tempWarning 50]
    ∧ classify_disk (recWithTemp 59) = [Finding.tempWarning 59]
    ∧ classify_disk (recWithTemp 60) = [Finding.tempCritical 60]
    ∧ Finding.severity (Finding.tempWarning 50) = Severity.Warning
    ∧ Finding.severity (Finding.tempCritical 60) = Severity.Critical := by
  refine ⟨?_, by decide, by decide, by decide, by decide, by decide, by decide⟩
  intro d
  unfold classify_disk
  rw [List.filter_append, List.filter_append, filterTemp_health, filterTemp_temp]
  have h3 : (if d.IsSSD then ssdLifeFindings d else hddSectorFindings d).filter
      Finding.isTempFinding = [] := by
    split
    · exact filterTemp_ssdLife d
    · exact filterTemp_hdd d
  rw [h3, List.nil_append, List.append_nil]
  rfl

/-- Witness for C2 at a concrete record. -/
theorem claim_C2_witness :
    (classify_disk (recWithTemp 55)).filter Finding.isTempFinding
      = [Finding.tempWarning 55] := by
  rw [claim_C2.1 (recWithTemp 55)]
  decide

/-- Claim C4 (confirmed).  A record with overall health `Unknown` and
temperature, life remaining and all three sector counters unset classifies to
an empty findings list and verdict OK, independently of the solid-state flag
and of the remaining presentational fields; in particular a device whose
blobs are all empty yields the default record, zero findings and verdict
OK. -/
theorem claim_C4 :
    (∀ (model serial : Str) (ssd : Bool) (poh : Option Str) (tw tr : Option Nat),
      classify_disk ⟨model, serial, ssd, "Unknown".data,
          ⟨none, poh, none, none, none, none, tw, tr⟩⟩ = []
      ∧ verdictOf (classify_disk ⟨model, serial, ssd, "Unknown".data,
          ⟨none, poh, none, none, none, none, tw, tr⟩⟩) = Verdict.OK)
    ∧ get_disk_info [] [] [] = defaultDiskInfo
    ∧ classify_disk (get_disk_info [] [] []) = []
    ∧ verdictOf (classify_disk (get_disk_info [] [] [])) = Verdict.OK := by
  refine ⟨?_, by decide, by decide, by decide⟩
  intro model serial ssd poh tw tr
  have h : classify_disk ⟨model, serial, ssd, "Unknown".data,
      ⟨none, poh, none, none, none, none, tw, tr⟩⟩ = [] := by
    unfold classify_disk healthFindings temperatureFindings ssdLifeFindings hddSectorFindings
    cases ssd <;> (dsimp only; rw [if_neg (by decide)]) <;> decide
  refine ⟨h, ?_⟩
  unfold verdictOf
  rw [if_pos h]

/-- Witness for C4 at a concrete record. -/
theorem claim_C4_witness :
    classify_disk ⟨"m".data, "s".data, true, "Unknown".data,
        ⟨none, none, none, none, none, none, none, none⟩⟩ = []
      ∧ verdictOf (classify_disk ⟨"m".data, "s".data, true, "Unknown".data,
        ⟨none, none, none, none, none, none, none, none⟩⟩) = Verdict.OK :=
  claim_C4.1 ("m".data) ("s".data) true none none none

/-- Claim C5 (confirmed).  For every batch of devices, the summary maps the
accumulated findings list to exit status 1 and verdict Warning exactly when
that list is non-empty — regardless of the individual severities — and to
exit status 0 and verdict OK otherwise. -/
theorem claim_C5 (inputs : List DeviceInput) :
    (summaryExitCode (collectFindings (runScan inputs)) = 1
       ↔ collectFindings (runScan inputs) ≠ [])
    ∧ (summaryExitCode (collectFindings (runScan inputs)) = 0
       ↔ collectFindings (runScan inputs) = [])
    ∧ (verdictOf (collectFindings (runScan inputs)) = Verdict.Warning
       ↔ collectFindings (runScan inputs) ≠ []) := by
  unfold summaryExitCode verdictOf
  by_cases h : collectFindings (runScan inputs) = [] <;> simp [h]

/-- Witness for C5: a batch consisting of one worn SSD gets exit status 1. -/
theorem claim_C5_witness :
    summaryExitCode (collectFindings (runScan [some (nvmeInfo, [], mwiAttr)])) = 1 :=
  (claim_C5 [some (nvmeInfo, [], mwiAttr)]).1.mpr (by decide)

/-- Claim C6 (confirmed).  An exception raised while processing one device is
caught at the per-device boundary: the scan of a batch with a throwing device
is the scan of the devices before it, the error marker, and the scan of the
devices after it, each processed exactly as they would be alone.  In the
concrete 3-device batch where device 2 throws, devices 1 and 3 still yield
their full records and findings and the accumulated findings keep both. -/
theorem claim_C6 :
    (∀ (pre post : List DeviceInput),
      runScan (pre ++ none :: post)
        = runScan pre ++ DeviceResult.procError :: runScan post)
    ∧ runScan [some (hddInfo1, [], pendingAttr1), none, some (nvmeInfo, [], mwiAttr)]
        = [DeviceResult.ok hddRec1 [Finding.pendingSectors 3],
           DeviceResult.procError,
           DeviceResult.ok ssdRec3 [Finding.ssdLifeWarning 15]]
    ∧ collectFindings
        (runScan [some (hddInfo1, [], pendingAttr1), none, some (nvmeInfo, [], mwiAttr)])
        = [Finding.pendingSectors 3, Finding.ssdLifeWarning 15] := by
  refine ⟨?_, by decide, by decide⟩
  intro pre post
  simp [runScan, processDevice]

/-- Witness for C6: the universal part applied to the concrete batch. -/
theorem claim_C6_witness :
    runScan ([some (hddInfo1, [], pendingAttr1)] ++ none :: [some (nvmeInfo, [], mwiAttr)])
      = runScan [some (hddInfo1, [], pendingAttr1)]
          ++ DeviceResult.procError :: runScan [some (nvmeInfo, [], mwiAttr)] :=
  claim_C6.1 [some (hddInfo1, [], pendingAttr1)] [some (nvmeInfo, [], mwiAttr)]

/-- Claim C7 (confirmed).  For every input triple, the extracted record
populates the HDD-only sector counters only when the solid-state flag is
false, and the SSD-only fields (life remaining, total bytes written and read)
only when it is true. -/
theorem claim_C7 (info health attr : Str) :
    ((get_disk_info info health attr).IsSSD = false ∨
      ((get_disk_info info health attr).Attributes.ReallocatedSectors = none ∧
       (get_disk_info info health attr).Attributes.PendingSectors = none ∧
       (get_disk_info info health attr).Attributes.UncorrectableSectors = none))
    ∧ ((get_disk_info info health attr).IsSSD = true ∨
      ((get_disk_info info health attr).Attributes.LifeRemaining = none ∧
       (get_disk_info info health attr).Attributes.TotalWritten = none ∧
       (get_disk_info info health attr).Attributes.TotalRead = none)) := by
  by_cases h1 : info = []
  · subst h1
    exact ⟨Or.inl rfl, Or.inr ⟨rfl, rfl, rfl⟩⟩
  · by_cases h2 : attr = []
    · rw [get_disk_info_noattr info health attr h1 h2]
      exact ⟨Or.inr ⟨rfl, rfl, rfl⟩, Or.inr ⟨rfl, rfl, rfl⟩⟩
    · rw [get_disk_info_eq info health attr h1 h2]
      cases hS : computeIsSSD info (extractModel info)
      · refine ⟨Or.inl ?_, Or.inr ⟨?_, ?_, ?_⟩⟩ <;> simp [hS]
      · refine ⟨Or.inr ⟨?_, ?_, ?_⟩, Or.inl ?_⟩ <;> simp [hS]

/-- Witness for C7 at concrete blobs. -/
theorem claim_C7_witness :
    (get_disk_info nvmeInfo [] mwiAttr).IsSSD = false ∨
      ((get_disk_info nvmeInfo [] mwiAttr).Attributes.ReallocatedSectors = none ∧
       (get_disk_info nvmeInfo [] mwiAttr).Attributes.PendingSectors = none ∧
       (get_disk_info nvmeInfo [] mwiAttr).Attributes.UncorrectableSectors = none) :=
  (claim_C7 nvmeInfo [] mwiAttr).1

/-- Claim C3 (confirmed).  For a solid-state record: when the wear pattern
matches with the `Media_Wearout_Indicator` alternative (group-1 flag false in
the embedding) life remaining is 100 minus the parsed raw value; with the
`Wear_Leveling_Count` alternative it is the parsed raw value itself; and when
neither row is present, the NVMe `Percentage Used: N%` fallback yields
100 − N.  In particular raw value 85 via the wearout path, and
`Percentage Used: 85%`, both store life remaining 15, which classifies to
exactly one Warning finding and no Critical finding. -/
theorem claim_C3 :
    (∀ (info health attr ds : Str), info ≠ [] → attr ≠ [] →
       (get_disk_info info health attr).IsSSD = true →
       searchLabels2Num ("Wear_Leveling_Count".data) ("Media_Wearout_Indicator".data) attr
         = some (false, ds) →
       (get_disk_info info health attr).Attributes.LifeRemaining
         = some (100 - (digitsToNat ds : Int)))
    ∧ (∀ (info health attr ds : Str), info ≠ [] → attr ≠ [] →
       (get_disk_info info health attr).IsSSD = true →
       searchLabels2Num ("Wear_Leveling_Count".data) ("Media_Wearout_Indicator".data) attr
         = some (true, ds) →
       (get_disk_info info health attr).Attributes.LifeRemaining
         = some ((digitsToNat ds : Int)))
    ∧ (∀ (info health attr ds : Str), info ≠ [] → attr ≠ [] →
       (get_disk_info info health attr).IsSSD = true →
       searchLabels2Num ("Wear_Leveling_Count".data) ("Media_Wearout_Indicator".data) attr
         = none →
       scanSuffixes pctUsedAt attr = some ds →
       (get_disk_info info health attr).Attributes.LifeRemaining
         = some (100 - (digitsToNat ds : Int)))
    ∧ (get_disk_info nvmeInfo [] mwiAttr).Attributes.LifeRemaining = some 15
    ∧ classify_disk (get_disk_info nvmeInfo [] mwiAttr) = [Finding.ssdLifeWarning 15]
    ∧ Finding.severity (Finding.ssdLifeWarning 15) = Severity.Warning
    ∧ (get_disk_info nvmeInfo [] pctAttr).Attributes.LifeRemaining = some 15
    ∧ classify_disk (get_disk_info nvmeInfo [] pctAttr) = [Finding.ssdLifeWarning 15] := by
  refine ⟨?_, ?_, ?_, by decide, by decide, by decide, by decide, by decide⟩
  · intro info health attr ds h1 h2 hssd hw
    rw [get_disk_info_eq info health attr h1 h2] at hssd ⊢
    replace hssd : computeIsSSD info (extractModel info) = true := hssd
    show (if computeIsSSD info (extractModel info) = true then extractLifeRemaining attr
      else none) = some (100 - (digitsToNat ds : Int))
    rw [hssd, if_pos rfl]
    unfold extractLifeRemaining
    rw [hw]
    rfl
  · intro info health attr ds h1 h2 hssd hw
    rw [get_disk_info_eq info health attr h1 h2] at hssd ⊢
    replace hssd : computeIsSSD info (extractModel info) = true := hssd
    show (if computeIsSSD info (extractModel info) = true then extractLifeRemaining attr
      else none) = some ((digitsToNat ds : Int))
    rw [hssd, if_pos rfl]
    unfold extractLifeRemaining
    rw [hw]
    rfl
  · intro info health attr ds h1 h2 hssd hw hp
    rw [get_disk_info_eq info health attr h1 h2] at hssd ⊢
    replace hssd : computeIsSSD info (extractModel info) = true := hssd
    show (if computeIsSSD info (extractModel info) = true then extractLifeRemaining attr
      else none) = some (100 - (digitsToNat ds : Int))
    rw [hssd, if_pos rfl]
    unfold extractLifeRemaining
    rw [hw, hp]

/-- Witness for C3: the wearout path at the concrete blobs. -/
theorem claim_C3_witness :
    (get_disk_info nvmeInfo [] mwiAttr).Attributes.LifeRemaining
      = some (100 - (digitsToNat ("85".data) : Int)) :=
  claim_C3.1 nvmeInfo [] mwiAttr ("85".data) (by decide) (by decide) (by decide) (by decide)

/-- Counterexample to claim C8 as stated: on an attribute blob whose
power-on-hours row parses to 25, the record stores the rendered
days-and-hours string `1 days, 1 hours`, not the raw hour count 25. -/
theorem claim_C8_cex :
    (get_disk_info hddInfo1 [] pohAttr).Attributes.PowerOnTime
        = some ("1 days, 1 hours".data)
      ∧ ("1 days, 1 hours".data : Str) ≠ (Nat.repr 25).data := by
  exact ⟨by decide, by decide⟩

/-- Claim C8 (amended).  For every attribute text from which a power-on-hours
value is parsed (legacy `Power_On_Hours` row, or the NVMe `Power On Hours: N`
line when the legacy row is absent), the record stores the rendering
`{N / 24} days, {N % 24} hours` of the parsed hour count N; the raw hour
count itself is not the stored state. -/
theorem claim_C8 :
    (∀ (info health attr ds : Str), info ≠ [] → attr ≠ [] →
       searchLabelNum ("Power_On_Hours".data) attr = some ds →
       (get_disk_info info health attr).Attributes.PowerOnTime
         = some (renderDaysHours (digitsToNat ds)))
    ∧ (∀ (info health attr ds : Str), info ≠ [] → attr ≠ [] →
       searchLabelNum ("Power_On_Hours".data) attr = none →
       scanSuffixes (wsDigitsAfterLabel ("Power On Hours:".data)) attr = some ds →
       (get_disk_info info health attr).Attributes.PowerOnTime
         = some (renderDaysHours (digitsToNat ds))) := by
  constructor
  · intro info health attr ds h1 h2 hpoh
    rw [get_disk_info_eq info health attr h1 h2]
    show extractPowerOnTime attr = some (renderDaysHours (digitsToNat ds))
    unfold extractPowerOnTime
    rw [hpoh]
    rfl
  · intro info health attr ds h1 h2 hleg hnvme
    rw [get_disk_info_eq info health attr h1 h2]
    show extractPowerOnTime attr = some (renderDaysHours (digitsToNat ds))
    unfold extractPowerOnTime
    rw [hleg, hnvme]
    rfl

/-- Witness for C8 at the concrete blobs. -/
theorem claim_C8_witness :
    (get_disk_info hddInfo1 [] pohAttr).Attributes.PowerOnTime
      = some (renderDaysHours (digitsToNat ("25".data))) :=
  claim_C8.1 hddInfo1 [] pohAttr ("25".data) (by decide) (by decide) (by decide)

/-- Claim C9 (confirmed).  The legacy conversion multiplies the LBA count by
exactly 512 bytes and the NVMe conversion multiplies the (comma-stripped)
data-unit count by exactly 512 KiB; an LBA count of 2147483648 and an NVMe
data-unit count of 2097152 both convert to exactly one TiB, including through
the full extractor. -/
theorem claim_C9 :
    (∀ n : Nat, lba_bytes_value n = n * 512)
    ∧ (∀ n : Nat, nvme_bytes_value n = n * 512 * 1024)
    ∧ (∀ (attr ds : Str), searchLabelNum ("Total_LBAs_Written".data) attr = some ds →
       extractTotalWritten attr = some (lba_bytes_value (digitsToNat ds)))
    ∧ (∀ (attr units : Str), searchLabelNum ("Total_LBAs_Written".data) attr = none →
       scanSuffixes (dataUnitsAfterLabel ("Data Units Written:".data)) attr = some units →
       units.filter (fun c => c ≠ ',') ≠ [] →
       extractTotalWritten attr
         = some (nvme_bytes_value (digitsToNat (units.filter (fun c => c ≠ ',')))))
    ∧ lba_bytes_value 2147483648 = 1024 ^ 4
    ∧ nvme_bytes_value 2097152 = 1024 ^ 4
    ∧ (get_disk_info nvmeInfo [] lbaAttr).Attributes.TotalWritten = some (1024 ^ 4)
    ∧ (get_disk_info nvmeInfo [] duAttr).Attributes.TotalWritten = some (1024 ^ 4)
    ∧ (get_disk_info nvmeInfo [] lbaReadAttr).Attributes.TotalRead = some (1024 ^ 4)
    ∧ (get_disk_info nvmeInfo [] duReadAttr).Attributes.TotalRead = some (1024 ^ 4) := by
  refine ⟨fun n => rfl, fun n => rfl, ?_, ?_, by decide, by decide,
    by decide, by decide, by decide, by decide⟩
  · intro attr ds h
    unfold extractTotalWritten
    rw [h]
  · intro attr units h1 h2 h3
    unfold extractTotalWritten
    rw [h1, h2]
    dsimp only
    rw [if_neg h3]

/-- Witness for C9 at the concrete blob. -/
theorem claim_C9_witness :
    extractTotalWritten lbaAttr = some (lba_bytes_value (digitsToNat ("2147483648".data))) :=
  claim_C9.2.2.1 lbaAttr ("2147483648".data) (by decide)

/-- Claim C10 (confirmed).  Whenever the primary health pattern fails and the
NVMe fallback matches with capture segment g, the overall health is `PASSED`
exactly when g contains `normal` case-insensitively — including inside a
longer word such as `abnormal`, and even when `failed` also appears in g —
and `FAILED` exactly when g contains no occurrence of `normal`.  The concrete
blobs exercise a segment holding both `failed` and `abnormal` (health
`PASSED`) and a segment holding only `failed` (health `FAILED`). -/
theorem claim_C10 :
    (∀ (health g : Str), health ≠ [] →
       scanSuffixes (lineTailAfterLabel healthResultLabel) health = none →
       nvmeHealthGroup health = some g →
       ((extractHealthStatus health = "PASSED".data
           ↔ hasSubstr ("normal".data) (toLowerStr g) = true)
        ∧ (extractHealthStatus health = "FAILED".data
           ↔ hasSubstr ("normal".data) (toLowerStr g) = false)))
    ∧ nvmeHealthGroup nvmeHealth1 = some ("failed,abnormal".data)
    ∧ hasSubstr ("failed".data) ("failed,abnormal".data) = true
    ∧ hasSubstr ("normal".data) (toLowerStr ("failed,abnormal".data)) = true
    ∧ extractHealthStatus nvmeHealth1 = "PASSED".data
    ∧ (get_disk_info nvmeInfo nvmeHealth1 []).HealthStatus = "PASSED".data
    ∧ nvmeHealthGroup nvmeHealth2 = some ("failed".data)
    ∧ extractHealthStatus nvmeHealth2 = "FAILED".data := by
  refine ⟨?_, by decide, by decide, by decide, by decide, by decide, by decide, by decide⟩
  intro health g hne hprim hgrp
  unfold extractHealthStatus
  rw [if_neg hne, hprim, hgrp]
  dsimp only
  cases hnb : hasSubstr ("normal".data) (toLowerStr g) <;> simp only [hnb] <;> decide

/-- Witness for C10 at the concrete health blob. -/
theorem claim_C10_witness :
    extractHealthStatus nvmeHealth1 = "PASSED".data
      ↔ hasSubstr ("normal".data) (toLowerStr ("failed,abnormal".data)) = true :=
  (claim_C10.1 nvmeHealth1 ("failed,abnormal".data) (by decide) (by decide) (by decide)).1
